import Mathlib

/-!
Verification development for the task-orchestration engine of the
auto-trading bot (src/main.py, src/enhanced_main.py).  Python functions are
shallowly embedded as Lean definitions; external collaborators (market data
fetchers, Telegram transport, file system) appear as explicit inputs.
-/

namespace TradingBot

/-! ## SessionClock -/

/-- Lexicographic `≤` on `(hour, minute)` pairs, mirroring Python tuple
comparison `(a, b) <= (c, d)`. -/
def tupLe (a b : Nat × Nat) : Bool :=
  a.1 < b.1 || (a.1 == b.1 && a.2 ≤ b.2)

/-- Lexicographic `<` on `(hour, minute)` pairs, mirroring Python tuple
comparison `(a, b) < (c, d)`. -/
def tupLt (a b : Nat × Nat) : Bool :=
  a.1 < b.1 || (a.1 == b.1 && a.2 < b.2)

/-- Embedding of `main.py` `is_market_open` (lines 59-74): weekday/time are those of the
current instant converted to America/New_York; weekend (`weekday >= 5`)
returns false, otherwise the check is
`(9, 30) <= (hour, minute) < (16, 0)` by Python tuple comparison.
Seconds are discarded by the tuple projection, exactly as in the source. -/
def is_market_open (weekday hour minute : Nat) : Bool :=
  if weekday ≥ 5 then false
  else tupLe (9, 30) (hour, minute) && tupLt (hour, minute) (16, 0)

/-- Embedding of `enhanced_main.py` `check_market_open` (lines 92-104): uses the host's
`datetime.now()` (no timezone conversion); weekend returns false, otherwise
true iff `9 <= now.hour <= 16` (minutes are ignored entirely). -/
def check_market_open (weekday hour : Nat) : Bool :=
  if weekday ≥ 5 then false
  else if 9 ≤ hour && hour ≤ 16 then true
  else false

/-- Modelled from the spec: the spec's market-open predicate for an instant
given as local (weekday, hour, minute, second) — a trading weekday
(Mon..Fri, i.e. `weekday < 5`) and local time of day in `[09:30, 16:00)`,
measured in seconds of the day. Used to compare the implementations
against the spec's words. -/
def marketOpenSpec (weekday hour minute second : Nat) : Prop :=
  weekday < 5 ∧ 34200 ≤ 3600 * hour + 60 * minute + second
    ∧ 3600 * hour + 60 * minute + second < 57600

/-- The function `check_market_open` of `enhanced_main.py` wraps its body in
`try/except`; on any internal error it returns `True` ("assume open"). -/
def check_market_open_guarded (r : Except String (Nat × Nat)) : Bool :=
  match r with
  | .error _ => true
  | .ok (wd, h) => check_market_open wd h

/-- The function `is_market_open` of `main.py` has no exception handler: an error while
resolving the timezone or clock (the `Except.error` case) propagates to the
caller instead of yielding a boolean. -/
def is_market_open_unguarded (r : Except String (Nat × Nat × Nat)) :
    Except String Bool :=
  match r with
  | .error e => .error e
  | .ok (wd, h, m) => .ok (is_market_open wd h m)

/-- Embedding of `main.py` `is_market_weak` (lines 76-91): input is the outcome of
fetching the SPY close history (`Except.error` when the fetch raised).
With at least two closes, compute `(today - prev) / prev * 100` and return
whether it is `< -1`; with fewer than two closes, or on a fetch error
(which the function catches and logs), return `false`. -/
def is_market_weak (hist : Except String (List ℚ)) : Bool :=
  match hist with
  | .error _ => false
  | .ok closes =>
    if h : 2 ≤ closes.length then
      let prev := closes.get ⟨closes.length - 2, by omega⟩
      let today := closes.get ⟨closes.length - 1, by omega⟩
      decide ((today - prev) / prev * 100 < -1)
    else false

/-! ## News sentiment (`main.py` `fetch_news_sentiment`, lines 93-108) -/

/-- Python substring containment (`pat in s`), via `splitOn`: a non-empty
pattern occurs in `s` iff splitting on it yields more than one piece. -/
def containsSub (s pat : String) : Bool :=
  decide (1 < (s.splitOn pat).length)

/-- The article-scanning loop of `fetch_news_sentiment`: each article title
is lower-cased; the first title containing "bankruptcy" or "dilution" yields
"negative", the first containing "record revenue" or "strong earnings"
yields "positive"; if the loop finishes, "neutral". -/
def classify_articles : List String → String
  | [] => "neutral"
  | title :: rest =>
    let t := title.toLower
    if containsSub t "bankruptcy" || containsSub t "dilution" then "negative"
    else if containsSub t "record revenue" || containsSub t "strong earnings" then
      "positive"
    else classify_articles rest

/-- Outcome of the HTTP news query: the request raised an exception, or it
returned a status code and a body whose JSON decoding either raised
(`Except.error`) or produced the list of article titles. -/
inductive NewsOutcome where
  | raised (e : String)
  | response (status : Nat) (body : Except String (List String))

/-- Embedding of `main.py` `fetch_news_sentiment`: the whole body is inside
`try/except`, so a raised request or a malformed JSON body falls to the
handler, which logs and returns "neutral"; a non-200 status skips the
article scan and returns "neutral". -/
def fetch_news_sentiment : NewsOutcome → String
  | .raised _ => "neutral"
  | .response status body =>
    if status = 200 then
      match body with
      | .error _ => "neutral"
      | .ok articles => classify_articles articles
    else "neutral"

/-! ## Positive-news watcher (`main.py` `watch_positive_news_stocks`,
lines 110-138) -/

/-- A stock record fetched from TradingView, with the sentiment that
`fetch_news_sentiment` returns for its symbol. -/
structure Stock where
  symbol : String
  sentiment : String
deriving DecidableEq

/-- The selection loop of `watch_positive_news_stocks`: keep, in fetch
order, the stocks whose sentiment is "positive" and whose symbol is not in
the previously stored list. -/
def positive_new_stocks (stocks : List Stock) (oldSymbols : List String) :
    List Stock :=
  stocks.filter fun s => s.sentiment == "positive" && !(oldSymbols.contains s.symbol)

/-- Embedding of `watch_positive_news_stocks`, as a function from the fetched stocks and
the current content of `data/positive_watchlist.json` (`none` when absent)
to the file's content afterwards: the selected stocks are written
(overwriting the file) only when the selection is non-empty; otherwise the
file is untouched. -/
def watch_positive_news_stocks (stocks : List Stock)
    (oldFile : Option (List Stock)) : Option (List Stock) :=
  let oldSymbols := (oldFile.getD []).map Stock.symbol
  let ps := positive_new_stocks stocks oldSymbols
  if ps.isEmpty then oldFile else some ps

/-! ## SnapshotStore backup-then-overwrite -/

/-- The backup-then-overwrite step used by the refresh actions
(`main.py` lines 147-152, 178-179, 192-193 followed by the collaborator's
write of the new snapshot): the file system is a map from path to content;
if `name` exists it is copied over `nameOld`, then `newData` is written to
`name`. Nothing else is touched — in particular `nameOld` is never
removed. -/
def backup_then_overwrite (fs : String → Option String)
    (name nameOld : String) (newData : String) : String → Option String :=
  let fs1 : String → Option String := fun k =>
    if (fs name).isSome ∧ k = nameOld then fs name else fs k
  fun k => if k = name then some newData else fs1 k

/-! ## Scheduler job table (`main.py` `main`, lines 235-246) -/

/-- How a registered callable treats the job's action when the dispatch
loop (`keep_running_schedules` → `schedule.run_pending()`) invokes it:
`createTask` wraps the coroutine in `asyncio.create_task` and returns at
once; `directCall` is a plain synchronous function executed inline by the
loop; `asyncioRun` wraps the coroutine in `asyncio.run`, which drives it to
completion before returning. -/
inductive Dispatch where
  | createTask
  | directCall
  | asyncioRun
deriving DecidableEq

/-- A registered job: its action's name and how its callable dispatches. -/
structure Job where
  name : String
  dispatch : Dispatch
deriving DecidableEq

/-- The job table built by `main()` (lines 235-246), in registration
order. All entries use `lambda: asyncio.create_task(...)` except
`watch_positive_news_stocks` (line 241, registered as the bare synchronous
function) and `verify_active_stop_orders` (line 246, wrapped in
`asyncio.run`). -/
def jobs : List Job :=
  [⟨"daily_model_training", .createTask⟩,
   ⟨"update_symbols", .createTask⟩,
   ⟨"update_market_data", .createTask⟩,
   ⟨"update_pump_stocks", .createTask⟩,
   ⟨"update_high_movement_stocks", .createTask⟩,
   ⟨"track_targets", .createTask⟩,
   ⟨"watch_positive_news_stocks", .directCall⟩,
   ⟨"send_daily_report_task", .createTask⟩,
   ⟨"clean_trade_history_task", .createTask⟩,
   ⟨"send_pnl_summary", .createTask⟩,
   ⟨"close_all_positions_before_market_close", .createTask⟩,
   ⟨"verify_active_stop_orders", .asyncioRun⟩]

/-- Whether invoking the job's callable makes the dispatch loop wait on
(part of) the action body rather than returning immediately. -/
def dispatchBlocksLoop : Dispatch → Bool
  | .createTask => false
  | .directCall => true
  | .asyncioRun => true

/-! ## Exception propagation of the pipeline actions -/

/-- Result of one invocation of a pipeline action as seen by the
scheduler's dispatch loop: it either returns normally or lets an exception
propagate out. -/
inductive ActionResult where
  | normal
  | propagated (e : String)
deriving DecidableEq

/-- How a pipeline action treats its body's outcome. Each action below is a
function of the market gate (where the action has one) and of the outcome
of its body (the work after the gate), `Except.error` when the body
raises. -/
def runCaught (body : Except String Unit) : ActionResult :=
  match body with
  | .ok _ => .normal
  | .error _ => .normal

/-- Embedding of `main.py` `update_market_data` (lines 140-161): gate `is_market_open`,
body wrapped in `try/except` which logs and returns. -/
def update_market_data_result (marketOpen : Bool)
    (body : Except String Unit) : ActionResult :=
  if !marketOpen then .normal else runCaught body

/-- Embedding of `main.py` `update_pump_stocks` (lines 173-185): gate `is_market_open`,
body wrapped in `try/except`. -/
def update_pump_stocks_result (marketOpen : Bool)
    (body : Except String Unit) : ActionResult :=
  if !marketOpen then .normal else runCaught body

/-- Embedding of `main.py` `update_high_movement_stocks` (lines 187-199): gate
`is_market_open`, body wrapped in `try/except`. -/
def update_high_movement_stocks_result (marketOpen : Bool)
    (body : Except String Unit) : ActionResult :=
  if !marketOpen then .normal else runCaught body

/-- Embedding of `main.py` `track_targets` (lines 201-206): no gate, body wrapped in
`try/except`. -/
def track_targets_result (body : Except String Unit) : ActionResult :=
  runCaught body

/-- Embedding of `main.py` `daily_model_training` (lines 217-223): no gate, body wrapped
in `try/except`. -/
def daily_model_training_result (body : Except String Unit) : ActionResult :=
  runCaught body

/-- Embedding of `main.py` `send_daily_report_task` (lines 208-212): returns early when
the market is open; otherwise `await generate_report_summary()` runs with
NO `try/except`, so an exception in it propagates to the caller. -/
def send_daily_report_task_result (marketOpen : Bool)
    (body : Except String Unit) : ActionResult :=
  if marketOpen then .normal
  else match body with
    | .ok _ => .normal
    | .error e => .propagated e

/-- Embedding of `main.py` `clean_trade_history_task` (lines 214-215): calls
`clean_old_trades()` with NO `try/except`, so an exception in it propagates
to the caller. -/
def clean_trade_history_task_result (body : Except String Unit) :
    ActionResult :=
  match body with
  | .ok _ => .normal
  | .error e => .propagated e

/-! ## Observable effects of the market-gated actions -/

/-- The externally observable effects of one action invocation: the
snapshot files it writes (in order) and the alert messages it emits. -/
structure Effects where
  snapshotWrites : List String
  alerts : List String
deriving DecidableEq

/-- No effects at all. -/
def Effects.empty : Effects := ⟨[], []⟩

/-- Effect trace of `update_market_data`: when the market is closed it
logs and returns before any file operation (lines 141-143); otherwise it
copies each existing snapshot to its `_old` backup (lines 147-152), then
the body (`analyze_market`, the diff, the cross-list check) contributes its
own writes and alerts. -/
def update_market_data_effects (marketOpen : Bool)
    (hasTop hasPump hasHigh : Bool) (bodyEff : Effects) : Effects :=
  if !marketOpen then .empty
  else
    { snapshotWrites :=
        (if hasTop then ["data/top_stocks_old.json"] else []) ++
        (if hasPump then ["data/pump_stocks_old.json"] else []) ++
        (if hasHigh then ["data/high_movement_stocks_old.json"] else []) ++
        bodyEff.snapshotWrites,
      alerts := bodyEff.alerts }

/-- Effect trace of `update_pump_stocks`: returns at once when the
market is closed (lines 174-175); otherwise backs up `pump_stocks.json`
when present and runs the body. -/
def update_pump_stocks_effects (marketOpen : Bool) (hasPump : Bool)
    (bodyEff : Effects) : Effects :=
  if !marketOpen then .empty
  else
    { snapshotWrites :=
        (if hasPump then ["data/pump_stocks_old.json"] else []) ++
        bodyEff.snapshotWrites,
      alerts := bodyEff.alerts }

/-- Effect trace of `update_high_movement_stocks`: returns at once when
the market is closed (lines 188-189); otherwise backs up
`high_movement_stocks.json` when present and runs the body. -/
def update_high_movement_stocks_effects (marketOpen : Bool) (hasHigh : Bool)
    (bodyEff : Effects) : Effects :=
  if !marketOpen then .empty
  else
    { snapshotWrites :=
        (if hasHigh then ["data/high_movement_stocks_old.json"] else []) ++
        bodyEff.snapshotWrites,
      alerts := bodyEff.alerts }

/-- Effect trace of `send_daily_report_task`: when the market is OPEN it
logs a postponement and returns (lines 209-211); otherwise
`generate_report_summary()` contributes its effects. -/
def send_daily_report_task_effects (marketOpen : Bool)
    (bodyEff : Effects) : Effects :=
  if marketOpen then .empty else bodyEff

/-! ## Daily model training across a calendar day -/

/-- The two kinds of event during one calendar day that can start the daily
model training: a process start — `main()` line 230 `await
daily_model_training()` runs unconditionally at every startup — and a
00:00 crossing observed by the in-memory `schedule` job of line 235 while
the process is running. -/
inductive DayEvent where
  | processStart
  | midnightCrossing
deriving DecidableEq

/-- Whether an event triggers a training run. Both do: startup training is
unconditional and the 00:00 job fires at each crossing it observes. -/
def event_fires_training : DayEvent → Bool
  | .processStart => true
  | .midnightCrossing => true

/-- Number of training runs on a day whose process starts and observed
00:00 crossings are the given event list. -/
def training_fires (day : List DayEvent) : Nat :=
  (day.filter event_fires_training).length

/-! ## Theorems -/

/-- Helper: `main.py`'s tuple check is the minute-of-day window
`[570, 960)` on trading weekdays. -/
theorem is_market_open_eq_true_iff (wd h m : Nat) (hm : m < 60) :
    is_market_open wd h m = true ↔
      wd < 5 ∧ 570 ≤ 60 * h + m ∧ 60 * h + m < 960 := by
  unfold is_market_open tupLe tupLt
  by_cases hwd : wd ≥ 5
  · simp only [if_pos hwd]
    constructor
    · intro hfalse; exact absurd hfalse (by simp)
    · intro hcontra; omega
  · simp only [if_neg hwd, Bool.and_eq_true, Bool.or_eq_true, beq_iff_eq,
      decide_eq_true_eq]
    omega

/-- Helper: `enhanced_main.py`'s hour check is the inclusive hour window
`9..16` on weekdays. -/
theorem check_market_open_eq_true_iff (wd h : Nat) :
    check_market_open wd h = true ↔ wd < 5 ∧ 9 ≤ h ∧ h ≤ 16 := by
  unfold check_market_open
  by_cases hwd : wd ≥ 5
  · simp only [if_pos hwd]
    constructor
    · intro hfalse; exact absurd hfalse (by simp)
    · intro hcontra; omega
  · simp only [if_neg hwd]
    by_cases hh : 9 ≤ h ∧ h ≤ 16
    · simp only [if_pos (by simp [hh.1, hh.2] : (decide (9 ≤ h) && decide (h ≤ 16)) = true)]
      simp; omega
    · have : (decide (9 ≤ h) && decide (h ≤ 16)) = false := by
        rcases Nat.lt_or_ge h 9 with hlt | hge
        · simp; omega
        · simp; omega
      simp only [if_neg (by simp [this] : ¬(decide (9 ≤ h) && decide (h ≤ 16)) = true)]
      constructor
      · intro hfalse; exact absurd hfalse (by simp)
      · intro hcontra; omega

/-- Claim C3 (counterexample): at Monday 16:00:00 on the host clock,
`enhanced_main.py`'s `check_market_open` returns `true`, although the
spec's market-open predicate (local time in `[09:30, 16:00)`) is false
there — contradicting "returns false at exactly 16:00". -/
theorem C3_counterexample :
    check_market_open 0 16 = true ∧ ¬ marketOpenSpec 0 16 0 0 := by
  constructor
  · rfl
  · intro hcontra
    exact absurd hcontra.2.2 (by decide)

/-- Claim C3 (amended): `main.py`'s `is_market_open` satisfies the claimed
iff exactly — for every valid instant (weekday, h:m:s), it returns true iff
the weekday is Mon..Fri and the local time of day lies in `[09:30, 16:00)`
(in particular false at 16:00:00 and at 09:29:59). `enhanced_main.py`'s
`check_market_open`, by contrast, is true on weekdays iff the host-clock
hour is in the inclusive range 9..16, so it is true at 16:00 and at
09:29:59. -/
theorem C3_market_open (wd h m s : Nat) (hm : m < 60) (hs : s < 60) :
    (is_market_open wd h m = true ↔ marketOpenSpec wd h m s) ∧
    (check_market_open wd h = true ↔ wd < 5 ∧ 9 ≤ h ∧ h ≤ 16) := by
  refine ⟨?_, check_market_open_eq_true_iff wd h⟩
  rw [is_market_open_eq_true_iff wd h m hm]
  unfold marketOpenSpec
  omega

/-- Claim C3 (witness): the amended theorem at Wednesday 09:29:59 — the
NY-timezone check is false there, the spec predicate too. -/
theorem C3_witness :
    (is_market_open 2 9 29 = true ↔ marketOpenSpec 2 9 29 59) ∧
    (check_market_open 2 9 = true ↔ 2 < 5 ∧ 9 ≤ 9 ∧ 9 ≤ 16) :=
  C3_market_open 2 9 29 59 (by decide) (by decide)

/-- Claim C8 (counterexample): when resolving the clock fails,
`main.py`'s `is_market_open` — which has no exception handler — propagates
the error instead of returning `true`. -/
theorem C8_counterexample :
    is_market_open_unguarded (.error "UnknownTimeZoneError") =
        .error "UnknownTimeZoneError" ∧
    is_market_open_unguarded (.error "UnknownTimeZoneError") ≠
        .ok true := by
  refine ⟨rfl, ?_⟩
  intro hcontra
  exact Except.noConfusion hcontra

/-- Claim C8 (amended): the assume-open fallback exists only in
`enhanced_main.py`'s `check_market_open`, whose handler returns `true` on
any internal error; `main.py`'s `is_market_open` has no handler, so a
calendar/timezone failure propagates to the caller unchanged. -/
theorem C8_assume_open (e : String) :
    check_market_open_guarded (.error e) = true ∧
    is_market_open_unguarded (.error e) = .error e :=
  ⟨rfl, rfl⟩

/-- Claim C7: with at least two closes and a positive prior close,
`is_market_weak` is true iff the latest close is down more than 1% from
the prior close (i.e. below 99% of it); and on a fetch failure it returns
false instead of raising. -/
theorem C7_is_market_weak (closes : List ℚ) (e : String)
    (h2 : 2 ≤ closes.length)
    (hp : 0 < closes.get ⟨closes.length - 2, by omega⟩) :
    (is_market_weak (.ok closes) = true ↔
      closes.get ⟨closes.length - 1, by omega⟩ <
        (99 / 100) * closes.get ⟨closes.length - 2, by omega⟩) ∧
    is_market_weak (.error e) = false := by
  refine ⟨?_, rfl⟩
  set prev := closes.get ⟨closes.length - 2, by omega⟩ with hprev
  set today := closes.get ⟨closes.length - 1, by omega⟩ with htoday
  have hrw : is_market_weak (.ok closes) =
      decide ((today - prev) / prev * 100 < -1) := by
    simp only [is_market_weak]
    rw [dif_pos h2]
  rw [hrw, decide_eq_true_eq]
  rw [div_mul_eq_mul_div, div_lt_iff₀ hp]
  constructor
  · intro hlt; nlinarith
  · intro hlt; nlinarith

/-- Claim C7 (witness): closes `[100, 98]` (a 2% drop) make the check
true, and a fetch error yields false. -/
theorem C7_witness :
    (is_market_weak (.ok [100, 98]) = true ↔
      (98 : ℚ) < (99 / 100) * 100) ∧
    is_market_weak (.error "FetchError") = false :=
  C7_is_market_weak [100, 98] "FetchError" (by decide) (by norm_num)

/-- Helper: the article scan only ever produces one of the three
sentiment strings. -/
theorem classify_articles_mem (l : List String) :
    classify_articles l = "negative" ∨ classify_articles l = "positive" ∨
      classify_articles l = "neutral" := by
  induction l with
  | nil => right; right; rfl
  | cons title rest ih =>
    simp only [classify_articles]
    split_ifs
    · left; rfl
    · right; left; rfl
    · exact ih

/-- Claim C9: `fetch_news_sentiment` always returns one of "negative",
"positive", "neutral"; and every failure outcome — a raised request, a
non-200 status, a 200 response whose body fails to decode — yields
"neutral". -/
theorem C9_sentiment_total (o : NewsOutcome) (e : String) (s : Nat)
    (body : Except String (List String)) (hs : s ≠ 200) :
    (fetch_news_sentiment o = "negative" ∨ fetch_news_sentiment o = "positive" ∨
      fetch_news_sentiment o = "neutral") ∧
    fetch_news_sentiment (.raised e) = "neutral" ∧
    fetch_news_sentiment (.response s body) = "neutral" ∧
    fetch_news_sentiment (.response 200 (.error e)) = "neutral" := by
  refine ⟨?_, rfl, ?_, rfl⟩
  · cases o with
    | raised _ => right; right; rfl
    | response st b =>
      simp only [fetch_news_sentiment]
      by_cases hst : st = 200
      · rw [if_pos hst]
        cases b with
        | error _ => right; right; rfl
        | ok articles => exact classify_articles_mem articles
      · rw [if_neg hst]; right; right; rfl
  · simp only [fetch_news_sentiment]
    rw [if_neg hs]

/-- Claim C9 (witness): the theorem at a raised request, a 404 response
carrying a positive-sounding title, and a malformed 200 body. -/
theorem C9_witness :
    (fetch_news_sentiment (.raised "boom") = "negative" ∨
      fetch_news_sentiment (.raised "boom") = "positive" ∨
      fetch_news_sentiment (.raised "boom") = "neutral") ∧
    fetch_news_sentiment (.raised "boom") = "neutral" ∧
    fetch_news_sentiment (.response 404 (.ok ["record revenue"])) = "neutral" ∧
    fetch_news_sentiment (.response 200 (.error "boom")) = "neutral" :=
  C9_sentiment_total (.raised "boom") "boom" 404 (.ok ["record revenue"])
    (by decide)

/-- Claim C10: the positive-watchlist file is left unchanged when no
fetched stock is both positive and new relative to the stored list; when
at least one such stock exists the file is overwritten with exactly the
positive-and-new stocks of the current run (prior entries dropped); and
"no positive-and-new stock" is exactly the emptiness of that selection. -/
theorem C10_watch_positive (stocks : List Stock)
    (oldFile : Option (List Stock)) :
    (positive_new_stocks stocks ((oldFile.getD []).map Stock.symbol) = [] →
      watch_positive_news_stocks stocks oldFile = oldFile) ∧
    (positive_new_stocks stocks ((oldFile.getD []).map Stock.symbol) ≠ [] →
      watch_positive_news_stocks stocks oldFile =
        some (positive_new_stocks stocks ((oldFile.getD []).map Stock.symbol))) ∧
    (positive_new_stocks stocks ((oldFile.getD []).map Stock.symbol) = [] ↔
      ∀ s ∈ stocks, ¬(s.sentiment = "positive" ∧
        s.symbol ∉ (oldFile.getD []).map Stock.symbol)) := by
  refine ⟨?_, ?_, ?_⟩
  · intro h
    simp only [watch_positive_news_stocks, h, List.isEmpty_nil, if_pos]
  · intro h
    simp only [watch_positive_news_stocks]
    rw [if_neg (by simpa [List.isEmpty_iff] using h)]
  · unfold positive_new_stocks
    rw [List.filter_eq_nil_iff]
    constructor
    · intro hall s hmem hcontra
      have := hall s hmem
      simp only [Bool.and_eq_true, Bool.not_eq_true', beq_iff_eq,
        List.elem_iff, decide_eq_false_iff_not] at this
      exact this ⟨hcontra.1, by simpa using hcontra.2⟩
    · intro hall s hmem
      have := hall s hmem
      simp only [Bool.and_eq_true, Bool.not_eq_true', beq_iff_eq,
        List.elem_iff, decide_eq_false_iff_not]
      intro hcontra
      exact this ⟨hcontra.1, by simpa using hcontra.2⟩

/-- Claim C10 (witness): with stored list `[CCC]` and fetch
`[AAA positive, BBB neutral]`, the file is rewritten to exactly
`[AAA positive]`. -/
theorem C10_witness :
    watch_positive_news_stocks
      [⟨"AAA", "positive"⟩, ⟨"BBB", "neutral"⟩]
      (some [⟨"CCC", "positive"⟩]) = some [⟨"AAA", "positive"⟩] := by
  have h := C10_watch_positive
    [⟨"AAA", "positive"⟩, ⟨"BBB", "neutral"⟩] (some [⟨"CCC", "positive"⟩])
  exact h.2.1 (by decide)

/-- Claim C4 (counterexample): when `name` does not exist but a stale
`name_old` is present, the refresh step leaves `name_old` holding its stale
content — it is not absent after the call, contradicting the claim. -/
theorem C4_counterexample :
    (fun k : String =>
        if k = "data/top_stocks_old.json" then some "stale" else none)
      "data/top_stocks.json" = none ∧
    backup_then_overwrite
      (fun k => if k = "data/top_stocks_old.json" then some "stale" else none)
      "data/top_stocks.json" "data/top_stocks_old.json" "newdata"
      "data/top_stocks_old.json" = some "stale" := by
  constructor
  · simp
  · simp [backup_then_overwrite]

/-- Claim C4 (amended): after the backup-then-overwrite step, `name` holds
the new data; when `name` existed before the call, `name_old` holds exactly
what `name` held; when `name` did not exist, `name_old` is simply left
unchanged (so it is absent only if it already was). -/
theorem C4_backup_then_overwrite (fs : String → Option String)
    (name nameOld newData : String) (hne : name ≠ nameOld) :
    (backup_then_overwrite fs name nameOld newData name = some newData) ∧
    (∀ old, fs name = some old →
      backup_then_overwrite fs name nameOld newData nameOld = some old) ∧
    (fs name = none →
      backup_then_overwrite fs name nameOld newData nameOld = fs nameOld) := by
  refine ⟨?_, ?_, ?_⟩
  · simp [backup_then_overwrite]
  · intro old hold
    simp [backup_then_overwrite, Ne.symm hne, hold]
  · intro hnone
    simp [backup_then_overwrite, Ne.symm hne, hnone]

/-- Claim C4 (witness): the amended theorem on a file system where
`data/top_stocks.json` holds "olddata". -/
theorem C4_witness :
    backup_then_overwrite
      (fun k => if k = "data/top_stocks.json" then some "olddata" else none)
      "data/top_stocks.json" "data/top_stocks_old.json" "newdata"
      "data/top_stocks.json" = some "newdata" ∧
    backup_then_overwrite
      (fun k => if k = "data/top_stocks.json" then some "olddata" else none)
      "data/top_stocks.json" "data/top_stocks_old.json" "newdata"
      "data/top_stocks_old.json" = some "olddata" := by
  have h := C4_backup_then_overwrite
    (fun k => if k = "data/top_stocks.json" then some "olddata" else none)
    "data/top_stocks.json" "data/top_stocks_old.json" "newdata" (by decide)
  exact ⟨h.1, h.2.1 "olddata" (by simp)⟩

/-- Claim C2 (counterexample): `clean_trade_history_task` and
`send_daily_report_task` (market closed) have no exception handler, so an
exception in their body propagates out of the action invocation into the
dispatch loop. -/
theorem C2_counterexample :
    clean_trade_history_task_result (.error "StorageError") =
        .propagated "StorageError" ∧
    send_daily_report_task_result false (.error "FetchError") =
        .propagated "FetchError" :=
  ⟨rfl, rfl⟩

/-- Claim C2 (amended): the refresh-market, refresh-pump,
refresh-high-movement, track-targets and train-model actions catch every
exception of their body and return normally; `send_daily_report_task` and
`clean_trade_history_task` have no handler and propagate the body's
exception to the scheduler's dispatch loop. -/
theorem C2_action_propagation (g : Bool) (body : Except String Unit)
    (e : String) :
    update_market_data_result g body = .normal ∧
    update_pump_stocks_result g body = .normal ∧
    update_high_movement_stocks_result g body = .normal ∧
    track_targets_result body = .normal ∧
    daily_model_training_result body = .normal ∧
    send_daily_report_task_result false (.error e) = .propagated e ∧
    clean_trade_history_task_result (.error e) = .propagated e := by
  refine ⟨?_, ?_, ?_, ?_, ?_, rfl, rfl⟩ <;>
    cases g <;> cases body <;>
      simp [update_market_data_result, update_pump_stocks_result,
        update_high_movement_stocks_result, track_targets_result,
        daily_model_training_result, runCaught]

/-- Claim C1 (counterexample): not every registered job dispatches by
launching an independent task — the job table contains entries whose
callable makes the dispatch loop wait on the action body. -/
theorem C1_counterexample :
    ¬ ∀ j ∈ jobs, j.dispatch = Dispatch.createTask := by
  decide

/-- Claim C1 (amended): every registered job except
`watch_positive_news_stocks` (registered as the bare synchronous function,
executed inline by the loop) and `verify_active_stop_orders` (wrapped in
`asyncio.run`, which drives the coroutine to completion before returning)
launches its action via `asyncio.create_task` and returns without awaiting
it, so those ticks are not blocked by the action body. -/
theorem C1_dispatch (j : Job) (hj : j ∈ jobs)
    (h1 : j.name ≠ "watch_positive_news_stocks")
    (h2 : j.name ≠ "verify_active_stop_orders") :
    j.dispatch = Dispatch.createTask ∧
    dispatchBlocksLoop j.dispatch = false := by
  revert j
  decide

/-- Claim C1 (witness): the amended theorem at the 5-minute
`update_market_data` job. -/
theorem C1_witness :
    (⟨"update_market_data", Dispatch.createTask⟩ : Job).dispatch =
        Dispatch.createTask ∧
    dispatchBlocksLoop
      (⟨"update_market_data", Dispatch.createTask⟩ : Job).dispatch = false :=
  C1_dispatch ⟨"update_market_data", Dispatch.createTask⟩
    (by decide) (by decide) (by decide)

/-- Claim C6: an invocation of a market-gated action whose gate fails —
the three refresh actions with the market closed, the daily report with
the market open — produces no snapshot write and no alert, whatever the
body would have done. -/
theorem C6_gated_no_effects (hasTop hasPump hasHigh : Bool)
    (bodyEff : Effects) :
    update_market_data_effects false hasTop hasPump hasHigh bodyEff =
        .empty ∧
    update_pump_stocks_effects false hasPump bodyEff = .empty ∧
    update_high_movement_stocks_effects false hasHigh bodyEff = .empty ∧
    send_daily_report_task_effects true bodyEff = .empty :=
  ⟨rfl, rfl, rfl, rfl⟩

/-- Claim C5 (counterexample): on a day where the process was running at
00:00 (one scheduled fire) and is restarted mid-day (one unconditional
startup fire from `main()` line 230), the daily model training fires
twice, not exactly once. -/
theorem C5_counterexample :
    training_fires [DayEvent.midnightCrossing, DayEvent.processStart] = 2 := by
  decide

/-- Claim C5 (amended): the daily model training fires once per 00:00
crossing observed while the process runs and additionally once per process
start (the startup call is unconditional and no last-run state is
persisted), i.e. once per triggering event of the day — so it fires
exactly once only on days with a single such event, and a mid-day restart
produces a second fire. -/
theorem C5_training_fires (day : List DayEvent) :
    training_fires day = day.length := by
  unfold training_fires
  induction day with
  | nil => rfl
  | cons ev rest ih =>
    cases ev <;> simp [List.filter_cons, event_fires_training, ih]

end TradingBot
